import Mathlib

/-!
Shallow embedding of the `LearnerBuilder` from `burn-train`
(`src/burn-train/src/learner/builder.rs`), together with the collaborators it
constructs. Components whose code is not among the sources (the Dashboard, the
metric loggers, the renderer, `update_log_file`) are modelled from the spec and
marked as such; everything else is translated directly from the Rust source.
-/

namespace BurnTrain

/-- Log-file state: the list of log-file paths created or updated so far. -/
abbrev LogState : Type := List String

/-- Modelled from the spec: `update_log_file` (declared in `learner/log.rs`, which is
not among the sources) creates or updates the run log file at the given path; we
record the path in the log-file state. -/
def update_log_file (path : String) (st : LogState) : LogState := path :: st

/-- Modelled from the spec: a metric logger is either the file-based logger rooted at
a directory (`FileMetricLogger::new`) or some other caller-supplied logger. -/
inductive MetricLogger : Type where
  | file (directory : String)
  | custom (id : Nat)

/-- Modelled from the spec: a dashboard renderer; `CLIDashboardRenderer::new()` is the
console renderer, other renderers are caller-supplied. -/
inductive DashboardRenderer : Type where
  | cli
  | custom (id : Nat)

/-- Modelled from the spec: a registered metric has a name and a value kind;
`numeric` is true exactly when the metric also implements the Rust `Numeric`
marker trait. -/
structure Metric : Type where
  name : String
  numeric : Bool

/-- Modelled from the spec: the Dashboard owns the renderer, the two per-split metric
loggers, the registered metrics of each split (the plot-registered ones tracked
separately), and the metric entries appended so far. No builder operation appends
entries; they are produced by training steps only. -/
structure Dashboard : Type where
  renderer : DashboardRenderer
  logger_train : MetricLogger
  logger_valid : MetricLogger
  metrics_train : List Metric
  metrics_valid : List Metric
  metrics_train_plot : List Metric
  metrics_valid_plot : List Metric
  entries : List String

/-- Modelled from the spec: `Dashboard::new(renderer, logger_train, logger_valid)`
starts with no registered metrics and no entries. -/
def Dashboard.new (renderer : DashboardRenderer)
    (logger_train logger_valid : MetricLogger) : Dashboard :=
  ⟨renderer, logger_train, logger_valid, [], [], [], [], []⟩

/-- Modelled from the spec: the Dashboard's replace-loggers operation swaps the two
per-split loggers and touches nothing else. -/
def Dashboard.replace_loggers (d : Dashboard)
    (logger_train logger_valid : MetricLogger) : Dashboard :=
  { d with logger_train := logger_train, logger_valid := logger_valid }

/-- Modelled from the spec: register a metric to be sampled on the training split. -/
def Dashboard.register_train (d : Dashboard) (m : Metric) : Dashboard :=
  { d with metrics_train := d.metrics_train ++ [m] }

/-- Modelled from the spec: register a metric to be sampled on the validation split. -/
def Dashboard.register_valid (d : Dashboard) (m : Metric) : Dashboard :=
  { d with metrics_valid := d.metrics_valid ++ [m] }

/-- Modelled from the spec: register a training metric and additionally mark it for
numeric time-series display. -/
def Dashboard.register_train_plot (d : Dashboard) (m : Metric) : Dashboard :=
  { d with metrics_train := d.metrics_train ++ [m],
           metrics_train_plot := d.metrics_train_plot ++ [m] }

/-- Modelled from the spec: register a validation metric and additionally mark it for
numeric time-series display. -/
def Dashboard.register_valid_plot (d : Dashboard) (m : Metric) : Dashboard :=
  { d with metrics_valid := d.metrics_valid ++ [m],
           metrics_valid_plot := d.metrics_valid_plot ++ [m] }

/-- A file checkpointer value as constructed by
`FileCheckpointer::new(recorder, directory, name, num_keep)`; `R` is the recorder
type. -/
structure FileCheckpointer (R : Type) : Type where
  recorder : R
  directory : String
  name : String
  num_keep : Nat

/-- A checkpointer value: either a file checkpointer, or the asynchronous wrapper
(`AsyncCheckpointer::new`) around another checkpointer. -/
inductive Checkpointer (R : Type) : Type where
  | file (c : FileCheckpointer R)
  | async (c : Checkpointer R)

/-- The retention count carried by a checkpointer, looking through async wrappers. -/
def Checkpointer.num_keep {R : Type} : Checkpointer R → Nat
  | .file c => c.num_keep
  | .async c => c.num_keep

/-- A trainer callback value: the Dashboard is one, and `AsyncTrainerCallback::new`
wraps any callback. -/
inductive TrainerCallback : Type where
  | dashboard (d : Dashboard)
  | async (c : TrainerCallback)

/-- The builder state: one field per field of the Rust `LearnerBuilder` struct.
`D` is the backend device type, `R` the recorder type. -/
structure LearnerBuilder (D R : Type) : Type where
  dashboard : Dashboard
  checkpointer_model : Option (Checkpointer R)
  checkpointer_optimizer : Option (Checkpointer R)
  checkpointer_scheduler : Option (Checkpointer R)
  num_epochs : Nat
  checkpoint : Option Nat
  directory : String
  grad_accumulation : Option Nat
  devices : List D

/-- The Learner value produced by `build`: one field per field filled in by the Rust
`Learner` struct literal in `LearnerBuilder::build`. -/
structure Learner (D R M O S : Type) : Type where
  model : M
  optim : O
  lr_scheduler : S
  num_epochs : Nat
  callback : TrainerCallback
  checkpoint : Option Nat
  checkpointer_model : Option (Checkpointer R)
  checkpointer_optimizer : Option (Checkpointer R)
  checkpointer_scheduler : Option (Checkpointer R)
  grad_accumulation : Option Nat
  devices : List D

variable {D R : Type}

/-- `LearnerBuilder::new(directory)`: CLI renderer, file metric loggers under
`directory ++ "/train"` and `directory ++ "/valid"`, one epoch, no checkpoint
configuration, the single default device. -/
def LearnerBuilder.new [Inhabited D] (directory : String) : LearnerBuilder D R :=
  { dashboard := Dashboard.new DashboardRenderer.cli
      (MetricLogger.file (directory ++ "/train"))
      (MetricLogger.file (directory ++ "/valid"))
    num_epochs := 1
    checkpoint := none
    checkpointer_model := none
    checkpointer_optimizer := none
    checkpointer_scheduler := none
    directory := directory
    grad_accumulation := none
    devices := [default] }

/-- `metric_loggers`: replace the default metric loggers with the provided ones,
delegating to the Dashboard's replace-loggers operation. -/
def LearnerBuilder.metric_loggers (b : LearnerBuilder D R)
    (logger_train logger_valid : MetricLogger) : LearnerBuilder D R :=
  { b with dashboard := b.dashboard.replace_loggers logger_train logger_valid }

/-- `metric_train`: register a training metric. -/
def LearnerBuilder.metric_train (b : LearnerBuilder D R) (m : Metric) :
    LearnerBuilder D R :=
  { b with dashboard := b.dashboard.register_train m }

/-- `metric_valid`: register a validation metric. -/
def LearnerBuilder.metric_valid (b : LearnerBuilder D R) (m : Metric) :
    LearnerBuilder D R :=
  { b with dashboard := b.dashboard.register_valid m }

/-- `grads_accumulation`: enable gradients accumulation. -/
def LearnerBuilder.grads_accumulation (b : LearnerBuilder D R) (accumulation : Nat) :
    LearnerBuilder D R :=
  { b with grad_accumulation := some accumulation }

/-- `metric_train_plot`: register a training metric displayed on a plot. The Rust
signature carries the trait bound `M : Metric + Numeric`, so the call exists only
for numeric metrics; the hypothesis `hm` embeds that bound. -/
def LearnerBuilder.metric_train_plot (b : LearnerBuilder D R) (m : Metric)
    (_hm : m.numeric = true) : LearnerBuilder D R :=
  { b with dashboard := b.dashboard.register_train_plot m }

/-- `metric_valid_plot`: register a validation metric displayed on a plot; as with
`metric_train_plot`, the hypothesis embeds the Rust `Numeric` trait bound. -/
def LearnerBuilder.metric_valid_plot (b : LearnerBuilder D R) (m : Metric)
    (_hm : m.numeric = true) : LearnerBuilder D R :=
  { b with dashboard := b.dashboard.register_valid_plot m }

/-- `num_epochs`: the number of epochs the training should last (primed because the
struct field of the same name takes the plain name). -/
def LearnerBuilder.num_epochs' (b : LearnerBuilder D R) (num_epochs : Nat) :
    LearnerBuilder D R :=
  { b with num_epochs := num_epochs }

/-- `devices`: run the training loop on the given devices (primed because the struct
field of the same name takes the plain name). -/
def LearnerBuilder.devices' (b : LearnerBuilder D R) (devices : List D) :
    LearnerBuilder D R :=
  { b with devices := devices }

/-- `checkpoint`: the epoch from which the training must resume (primed because the
struct field of the same name takes the plain name). -/
def LearnerBuilder.checkpoint' (b : LearnerBuilder D R) (checkpoint : Nat) :
    LearnerBuilder D R :=
  { b with checkpoint := some checkpoint }

/-- `with_file_checkpointer(num_keep, recorder)`: set all three checkpointers to
file checkpointers sharing the recorder and the `directory ++ "/checkpoint"` root,
tagged `"model"`, `"optim"` and `"scheduler"`. -/
def LearnerBuilder.with_file_checkpointer (b : LearnerBuilder D R) (num_keep : Nat)
    (recorder : R) : LearnerBuilder D R :=
  { b with
    checkpointer_model := some (Checkpointer.file
      ⟨recorder, b.directory ++ "/checkpoint", "model", num_keep⟩)
    checkpointer_optimizer := some (Checkpointer.file
      ⟨recorder, b.directory ++ "/checkpoint", "optim", num_keep⟩)
    checkpointer_scheduler := some (Checkpointer.file
      ⟨recorder, b.directory ++ "/checkpoint", "scheduler", num_keep⟩) }

/-- `init_logger`: update the run log file at `directory ++ "/experiment.log"`. -/
def LearnerBuilder.init_logger (b : LearnerBuilder D R) (st : LogState) : LogState :=
  update_log_file (b.directory ++ "/experiment.log") st

/-- `build(model, optim, lr_scheduler)`: initialize the run log, wrap the dashboard
in the async callback wrapper, wrap each configured checkpointer in the async
checkpointer, and assemble the Learner. The log-file state is threaded explicitly:
the returned state is the one produced by `init_logger` before the Learner value is
assembled. -/
def LearnerBuilder.build {M O S : Type} (b : LearnerBuilder D R)
    (model : M) (optim : O) (lr_scheduler : S) (st : LogState) :
    Learner D R M O S × LogState :=
  let st := b.init_logger st
  let callback := TrainerCallback.async (TrainerCallback.dashboard b.dashboard)
  let checkpointer_optimizer :=
    match b.checkpointer_optimizer with
    | some checkpointer => some (Checkpointer.async checkpointer)
    | none => none
  let checkpointer_model :=
    match b.checkpointer_model with
    | some checkpointer => some (Checkpointer.async checkpointer)
    | none => none
  let checkpointer_scheduler :=
    match b.checkpointer_scheduler with
    | some checkpointer => some (Checkpointer.async checkpointer)
    | none => none
  ({ model := model
     optim := optim
     lr_scheduler := lr_scheduler
     num_epochs := b.num_epochs
     callback := callback
     checkpoint := b.checkpoint
     checkpointer_model := checkpointer_model
     checkpointer_optimizer := checkpointer_optimizer
     checkpointer_scheduler := checkpointer_scheduler
     grad_accumulation := b.grad_accumulation
     devices := b.devices }, st)

/-- One builder configuration call together with its arguments. The plot
constructors carry the proof that the metric is numeric, mirroring the Rust trait
bound that makes those calls well-typed only for numeric metrics. -/
inductive BuilderOp (D R : Type) : Type where
  | metric_loggers (logger_train logger_valid : MetricLogger)
  | metric_train (m : Metric)
  | metric_valid (m : Metric)
  | grads_accumulation (accumulation : Nat)
  | metric_train_plot (m : Metric) (hm : m.numeric = true)
  | metric_valid_plot (m : Metric) (hm : m.numeric = true)
  | num_epochs (n : Nat)
  | devices (ds : List D)
  | checkpoint (epoch : Nat)
  | with_file_checkpointer (num_keep : Nat) (recorder : R)

/-- Apply one configuration call to a builder. -/
def LearnerBuilder.applyOp (b : LearnerBuilder D R) : BuilderOp D R → LearnerBuilder D R
  | .metric_loggers lt lv => b.metric_loggers lt lv
  | .metric_train m => b.metric_train m
  | .metric_valid m => b.metric_valid m
  | .grads_accumulation a => b.grads_accumulation a
  | .metric_train_plot m hm => b.metric_train_plot m hm
  | .metric_valid_plot m hm => b.metric_valid_plot m hm
  | .num_epochs n => b.num_epochs' n
  | .devices ds => b.devices' ds
  | .checkpoint e => b.checkpoint' e
  | .with_file_checkpointer k r => b.with_file_checkpointer k r

/-- Apply a sequence of configuration calls, left to right. -/
def LearnerBuilder.applyOps (b : LearnerBuilder D R) (ops : List (BuilderOp D R)) :
    LearnerBuilder D R :=
  ops.foldl LearnerBuilder.applyOp b

/-- Whether a configuration call keeps the device list non-empty: a `devices` call
must pass a non-empty list, every other call qualifies. -/
def BuilderOp.devicesOk : BuilderOp D R → Bool
  | .devices ds => !ds.isEmpty
  | _ => true

/-- All-or-none checkpointer configuration of a builder: the three checkpointer
slots are either all set or all unset. -/
def LearnerBuilder.ckptAllOrNone (b : LearnerBuilder D R) : Bool :=
  (b.checkpointer_model.isSome && b.checkpointer_optimizer.isSome
      && b.checkpointer_scheduler.isSome)
    || (b.checkpointer_model.isNone && b.checkpointer_optimizer.isNone
      && b.checkpointer_scheduler.isNone)

/-- All-or-none checkpointer configuration of a Learner. -/
def Learner.ckptAllOrNone {M O S : Type} (l : Learner D R M O S) : Bool :=
  (l.checkpointer_model.isSome && l.checkpointer_optimizer.isSome
      && l.checkpointer_scheduler.isSome)
    || (l.checkpointer_model.isNone && l.checkpointer_optimizer.isNone
      && l.checkpointer_scheduler.isNone)

/-! ## Helper lemmas -/

/-- No single configuration call appends a metric entry. -/
theorem applyOp_entries (b : LearnerBuilder D R) (op : BuilderOp D R) :
    (b.applyOp op).dashboard.entries = b.dashboard.entries := by
  cases op <;> rfl

/-- No sequence of configuration calls appends a metric entry. -/
theorem applyOps_entries (ops : List (BuilderOp D R)) :
    ∀ b : LearnerBuilder D R,
      (b.applyOps ops).dashboard.entries = b.dashboard.entries := by
  induction ops with
  | nil => intro b; rfl
  | cons op ops ih =>
    intro b
    exact (ih (b.applyOp op)).trans (applyOp_entries b op)

/-- One configuration call preserves all-numeric-ness of the two plot lists. -/
theorem applyOp_plot_numeric (b : LearnerBuilder D R) (op : BuilderOp D R)
    (h1 : b.dashboard.metrics_train_plot.all (fun m => m.numeric) = true)
    (h2 : b.dashboard.metrics_valid_plot.all (fun m => m.numeric) = true) :
    ((b.applyOp op).dashboard.metrics_train_plot.all (fun m => m.numeric) = true)
      ∧ ((b.applyOp op).dashboard.metrics_valid_plot.all (fun m => m.numeric) = true) := by
  cases op <;> try exact ⟨h1, h2⟩
  case metric_train_plot m hm =>
    refine ⟨?_, h2⟩
    show (b.dashboard.metrics_train_plot ++ [m]).all (fun m => m.numeric) = true
    simp [List.all_append, h1, hm]
  case metric_valid_plot m hm =>
    refine ⟨h1, ?_⟩
    show (b.dashboard.metrics_valid_plot ++ [m]).all (fun m => m.numeric) = true
    simp [List.all_append, h2, hm]

/-- A sequence of configuration calls preserves all-numeric-ness of the plot lists. -/
theorem applyOps_plot_numeric (ops : List (BuilderOp D R)) :
    ∀ b : LearnerBuilder D R,
      b.dashboard.metrics_train_plot.all (fun m => m.numeric) = true →
      b.dashboard.metrics_valid_plot.all (fun m => m.numeric) = true →
      ((b.applyOps ops).dashboard.metrics_train_plot.all (fun m => m.numeric) = true
        ∧ (b.applyOps ops).dashboard.metrics_valid_plot.all (fun m => m.numeric) = true) := by
  induction ops with
  | nil => intro b h1 h2; exact ⟨h1, h2⟩
  | cons op ops ih =>
    intro b h1 h2
    have hstep := applyOp_plot_numeric b op h1 h2
    exact ih (b.applyOp op) hstep.1 hstep.2

/-- One configuration call preserves non-emptiness of the device list, provided a
`devices` call passes a non-empty list. -/
theorem applyOp_devices_ne (b : LearnerBuilder D R) (op : BuilderOp D R)
    (hop : op.devicesOk = true) (hb : b.devices ≠ []) :
    (b.applyOp op).devices ≠ [] := by
  cases op <;> try exact hb
  rename_i ds
  show ds ≠ []
  simpa [BuilderOp.devicesOk] using hop

/-- A sequence of configuration calls whose `devices` calls all pass non-empty
lists preserves non-emptiness of the device list. -/
theorem applyOps_devices_ne (ops : List (BuilderOp D R)) :
    ∀ b : LearnerBuilder D R, ops.all BuilderOp.devicesOk = true → b.devices ≠ [] →
      (b.applyOps ops).devices ≠ [] := by
  induction ops with
  | nil => intro b _ hb; exact hb
  | cons op ops ih =>
    intro b hall hb
    rw [List.all_cons, Bool.and_eq_true] at hall
    exact ih (b.applyOp op) hall.2 (applyOp_devices_ne b op hall.1 hb)

/-- One configuration call preserves the all-or-none checkpointer property. -/
theorem applyOp_ckpt (b : LearnerBuilder D R) (op : BuilderOp D R)
    (h : b.ckptAllOrNone = true) : (b.applyOp op).ckptAllOrNone = true := by
  cases op <;> first | exact h | rfl

/-- A sequence of configuration calls preserves the all-or-none checkpointer
property. -/
theorem applyOps_ckpt (ops : List (BuilderOp D R)) :
    ∀ b : LearnerBuilder D R, b.ckptAllOrNone = true →
      (b.applyOps ops).ckptAllOrNone = true := by
  induction ops with
  | nil => intro b hb; exact hb
  | cons op ops ih => intro b hb; exact ih (b.applyOp op) (applyOp_ckpt b op hb)

/-- `build` carries the builder's all-or-none checkpointer property over to the
Learner unchanged. -/
theorem build_ckptAllOrNone {M O S : Type} (b : LearnerBuilder D R) (m : M) (o : O)
    (s : S) (st : LogState) :
    (b.build m o s st).1.ckptAllOrNone = b.ckptAllOrNone := by
  obtain ⟨dash, cm, co, cs, ne, cp, dir, ga, devs⟩ := b
  cases cm <;> cases co <;> cases cs <;> rfl

/-! ## Claim theorems -/

/-- Claim C1: `build(model, optim, lr_scheduler)` wraps the assembled Dashboard in
the async callback wrapper, wraps each of the three checkpointers in the async
checkpointing wrapper exactly when that checkpointer was configured (absent
otherwise), and returns a Learner whose fields are exactly the given model,
optimizer and scheduler, the builder's num_epochs, the wrapped callback, the
optional resume epoch, the three optional wrapped checkpointers, the optional
gradient-accumulation count, and the builder's device list. -/
theorem build_spec {M O S : Type} (b : LearnerBuilder D R) (m : M) (o : O) (s : S)
    (st : LogState) :
    (b.build m o s st).1.model = m ∧
    (b.build m o s st).1.optim = o ∧
    (b.build m o s st).1.lr_scheduler = s ∧
    (b.build m o s st).1.num_epochs = b.num_epochs ∧
    (b.build m o s st).1.callback
        = TrainerCallback.async (TrainerCallback.dashboard b.dashboard) ∧
    (b.build m o s st).1.checkpoint = b.checkpoint ∧
    (b.build m o s st).1.checkpointer_model
        = b.checkpointer_model.map Checkpointer.async ∧
    (b.build m o s st).1.checkpointer_optimizer
        = b.checkpointer_optimizer.map Checkpointer.async ∧
    (b.build m o s st).1.checkpointer_scheduler
        = b.checkpointer_scheduler.map Checkpointer.async ∧
    (b.build m o s st).1.grad_accumulation = b.grad_accumulation ∧
    (b.build m o s st).1.devices = b.devices := by
  obtain ⟨dash, cm, co, cs, ne, cp, dir, ga, devs⟩ := b
  refine ⟨rfl, rfl, rfl, rfl, rfl, rfl, ?_, ?_, ?_, rfl, rfl⟩
  · cases cm <;> rfl
  · cases co <;> rfl
  · cases cs <;> rfl

/-- Claim C2: a freshly created builder has the documented defaults: one epoch, no
checkpointers, no resume epoch, no gradient accumulation, the single default
device, and a dashboard built from the console renderer and file metric loggers
rooted at `directory ++ "/train"` and `directory ++ "/valid"`. -/
theorem new_defaults [Inhabited D] (directory : String) :
    (LearnerBuilder.new directory : LearnerBuilder D R).num_epochs = 1 ∧
    (LearnerBuilder.new directory : LearnerBuilder D R).checkpointer_model = none ∧
    (LearnerBuilder.new directory : LearnerBuilder D R).checkpointer_optimizer = none ∧
    (LearnerBuilder.new directory : LearnerBuilder D R).checkpointer_scheduler = none ∧
    (LearnerBuilder.new directory : LearnerBuilder D R).checkpoint = none ∧
    (LearnerBuilder.new directory : LearnerBuilder D R).grad_accumulation = none ∧
    (LearnerBuilder.new directory : LearnerBuilder D R).devices = [default] ∧
    (LearnerBuilder.new directory : LearnerBuilder D R).directory = directory ∧
    (LearnerBuilder.new directory : LearnerBuilder D R).dashboard
        = Dashboard.new DashboardRenderer.cli
            (MetricLogger.file (directory ++ "/train"))
            (MetricLogger.file (directory ++ "/valid")) :=
  ⟨rfl, rfl, rfl, rfl, rfl, rfl, rfl, rfl, rfl⟩

/-- Claim C3: `with_file_checkpointer(num_keep, recorder)` configures exactly the
three checkpointer slots with file checkpointers built from the same recorder, the
same `directory ++ "/checkpoint"` root and the given `num_keep`, differentiated
only by the tags `"model"`, `"optim"` and `"scheduler"`; every other builder field
is untouched. -/
theorem with_file_checkpointer_spec (b : LearnerBuilder D R) (k : Nat) (r : R) :
    (b.with_file_checkpointer k r).checkpointer_model
        = some (Checkpointer.file ⟨r, b.directory ++ "/checkpoint", "model", k⟩) ∧
    (b.with_file_checkpointer k r).checkpointer_optimizer
        = some (Checkpointer.file ⟨r, b.directory ++ "/checkpoint", "optim", k⟩) ∧
    (b.with_file_checkpointer k r).checkpointer_scheduler
        = some (Checkpointer.file ⟨r, b.directory ++ "/checkpoint", "scheduler", k⟩) ∧
    (b.with_file_checkpointer k r).dashboard = b.dashboard ∧
    (b.with_file_checkpointer k r).num_epochs = b.num_epochs ∧
    (b.with_file_checkpointer k r).checkpoint = b.checkpoint ∧
    (b.with_file_checkpointer k r).directory = b.directory ∧
    (b.with_file_checkpointer k r).grad_accumulation = b.grad_accumulation ∧
    (b.with_file_checkpointer k r).devices = b.devices :=
  ⟨rfl, rfl, rfl, rfl, rfl, rfl, rfl, rfl, rfl⟩

/-- Claim C4: `build` initializes the run log at `directory ++ "/experiment.log"`
(the returned log state is exactly `update_log_file` applied to the incoming
state), the log entry is present in the returned state with no rollback, and the
resulting log state does not depend on the model, optimizer or scheduler used to
construct the Learner — the side effect is already decided before the Learner
value is assembled. -/
theorem build_init_log {M O S : Type} (b : LearnerBuilder D R) (m : M) (o : O)
    (s : S) (st : LogState) (m' : M) (o' : O) (s' : S) :
    (b.build m o s st).2 = update_log_file (b.directory ++ "/experiment.log") st ∧
    (b.directory ++ "/experiment.log") ∈ (b.build m o s st).2 ∧
    (b.build m o s st).2 = (b.build m' o' s' st).2 := by
  refine ⟨rfl, ?_, rfl⟩
  show b.directory ++ "/experiment.log" ∈ (b.directory ++ "/experiment.log") :: st
  exact List.mem_cons_self _ _

/-- Claim C5: in every builder reachable by configuration calls, every metric
registered for plot display (on either split) is numeric: the plot-registration
calls carry the `Numeric` bound, so a non-numeric metric can never reach the plot
lists and a display-time failure is impossible. -/
theorem plot_metrics_numeric [Inhabited D] (directory : String)
    (ops : List (BuilderOp D R)) :
    (((LearnerBuilder.new directory : LearnerBuilder D R).applyOps
        ops).dashboard.metrics_train_plot.all (fun m => m.numeric) = true) ∧
    (((LearnerBuilder.new directory : LearnerBuilder D R).applyOps
        ops).dashboard.metrics_valid_plot.all (fun m => m.numeric) = true) :=
  applyOps_plot_numeric ops _ rfl rfl

/-- Claim C6 counterexample: the single configuration call `devices([])` is
accepted unchecked, and the resulting Learner's device list is empty — refuting
the claim that the device list of the resulting Learner is always non-empty. -/
theorem devices_empty_cx :
    (((LearnerBuilder.new "run" : LearnerBuilder Nat Unit).applyOps
        [BuilderOp.devices []]).build () () () ([] : LogState)).1.devices = [] := rfl

/-- Claim C6 (amended): for every sequence of builder configuration calls in which
every `devices` call passes a non-empty list, the device list of the resulting
Learner is non-empty. -/
theorem devices_nonempty [Inhabited D] {M O S : Type} (directory : String)
    (ops : List (BuilderOp D R)) (h : ops.all BuilderOp.devicesOk = true)
    (m : M) (o : O) (s : S) (st : LogState) :
    (((LearnerBuilder.new directory : LearnerBuilder D R).applyOps ops).build
        m o s st).1.devices ≠ [] := by
  have hb : (LearnerBuilder.new directory : LearnerBuilder D R).devices ≠ [] := by
    simp [LearnerBuilder.new]
  exact applyOps_devices_ne ops _ h hb

/-- Claim C6 witness: a concrete call sequence whose `devices` call passes a
non-empty list, with the non-empty conclusion obtained from `devices_nonempty`. -/
theorem devices_nonempty_witness :
    (([BuilderOp.num_epochs 3, BuilderOp.devices [0, 1]] : List (BuilderOp Nat Unit)).all
        BuilderOp.devicesOk = true) ∧
    (((LearnerBuilder.new "run" : LearnerBuilder Nat Unit).applyOps
        [BuilderOp.num_epochs 3, BuilderOp.devices [0, 1]]).build () () ()
        ([] : LogState)).1.devices ≠ [] :=
  ⟨by decide, devices_nonempty "run" [BuilderOp.num_epochs 3, BuilderOp.devices [0, 1]]
    (by decide) () () () []⟩

/-- Claim C8: for every `num_keep ≥ 1`, `with_file_checkpointer` passes `num_keep`
through to all three checkpointer instances unchanged; in particular `num_keep = 1`
is allowed and not silently raised or downgraded. -/
theorem num_keep_passthrough (b : LearnerBuilder D R) (k : Nat) (r : R)
    (_hk : 1 ≤ k) :
    (b.with_file_checkpointer k r).checkpointer_model.map Checkpointer.num_keep
        = some k ∧
    (b.with_file_checkpointer k r).checkpointer_optimizer.map Checkpointer.num_keep
        = some k ∧
    (b.with_file_checkpointer k r).checkpointer_scheduler.map Checkpointer.num_keep
        = some k :=
  ⟨rfl, rfl, rfl⟩

/-- Claim C8 witness: `num_keep = 1` at a concrete builder and recorder. -/
theorem num_keep_passthrough_witness :
    1 ≤ 1 ∧
    (((LearnerBuilder.new "run" : LearnerBuilder Nat Unit).with_file_checkpointer
          1 ()).checkpointer_model.map Checkpointer.num_keep = some 1 ∧
      ((LearnerBuilder.new "run" : LearnerBuilder Nat Unit).with_file_checkpointer
          1 ()).checkpointer_optimizer.map Checkpointer.num_keep = some 1 ∧
      ((LearnerBuilder.new "run" : LearnerBuilder Nat Unit).with_file_checkpointer
          1 ()).checkpointer_scheduler.map Checkpointer.num_keep = some 1) :=
  ⟨Nat.le_refl 1, num_keep_passthrough (LearnerBuilder.new "run") 1 () (Nat.le_refl 1)⟩

/-- Claim C9: `metric_loggers` replaces the two metric loggers with the provided
ones by delegating to the Dashboard's replace-loggers operation, leaving the
renderer and the appended entries untouched; and in every builder reachable by
configuration calls no metric entry has been appended yet, so the replacement
always happens before any entries exist. -/
theorem metric_loggers_spec [Inhabited D] (b : LearnerBuilder D R)
    (lt lv : MetricLogger) (directory : String) (ops : List (BuilderOp D R)) :
    (b.metric_loggers lt lv).dashboard = b.dashboard.replace_loggers lt lv ∧
    (b.metric_loggers lt lv).dashboard.logger_train = lt ∧
    (b.metric_loggers lt lv).dashboard.logger_valid = lv ∧
    (b.metric_loggers lt lv).dashboard.renderer = b.dashboard.renderer ∧
    (b.metric_loggers lt lv).dashboard.entries = b.dashboard.entries ∧
    ((LearnerBuilder.new directory : LearnerBuilder D R).applyOps
        ops).dashboard.entries = [] := by
  refine ⟨rfl, rfl, rfl, rfl, rfl, ?_⟩
  exact (applyOps_entries ops _).trans rfl

/-- Claim C10: after every sequence of builder configuration calls the three
checkpointer slots are either all configured or all absent, and `build` preserves
this all-or-none property into the Learner's three optional checkpointers. -/
theorem ckpt_all_or_none_invariant [Inhabited D] {M O S : Type} (directory : String)
    (ops : List (BuilderOp D R)) (m : M) (o : O) (s : S) (st : LogState) :
    ((LearnerBuilder.new directory : LearnerBuilder D R).applyOps
        ops).ckptAllOrNone = true ∧
    (((LearnerBuilder.new directory : LearnerBuilder D R).applyOps ops).build
        m o s st).1.ckptAllOrNone = true := by
  have hb := applyOps_ckpt ops (LearnerBuilder.new directory) rfl
  exact ⟨hb, (build_ckptAllOrNone _ m o s st).trans hb⟩

end BurnTrain

